import Mathlib

/-!
Shallow embedding of the tank-game simulation core from `src/server.js`.

Numbers (JS doubles) are modelled as exact rationals `ℚ`; wall-clock times
(`Date.now()`) are `ℚ` parameters threaded explicitly.  The transcendental
library calls have no rational closed form, so they are passed as oracle
parameters whose intended values are documented at each use site:

* `Math.sqrt` in distance computations becomes a parameter `s : ℚ → ℚ`;
  theorems that depend on its value hypothesise `0 ≤ d ∧ d * d = arg`
  (the exact nonnegative square root) at the points actually used, and
  concrete runs use inputs whose squared distances are perfect squares.
* `Math.cos (Math.atan2 dy dx)` equals `dx / dist` and
  `Math.sin (Math.atan2 dy dx)` equals `dy / dist` whenever
  `dist = Math.sqrt (dx*dx + dy*dy) > 0`; at `dx = dy = 0`, JS gives
  `atan2 0 0 = 0`, so `cos = 1`, `sin = 0`.  The collision code is embedded
  through those identities.
* `Math.atan2` in `applyInput`, and `Math.cos`/`Math.sin` of a tank's
  heading in `shoot`, become parameters (`at2`, `cv`, `sv`).
* The while-loop normalisation of the heading difference into `(-π, π]`
  in `Player.update` involves `π`; it is abstracted as a parameter
  `na : ℚ → ℚ` applied to the raw difference (`na := id` is exact whenever
  the raw difference already lies in `(-π, π]`, e.g. when it is `0`).
* `Math.random()` results become explicit parameters in `[0, 1)`.
-/

namespace TankGame

/-- `GAME_CONFIG.ARENA_WIDTH` -/
def ARENA_WIDTH : ℚ := 1200

/-- `GAME_CONFIG.ARENA_HEIGHT` -/
def ARENA_HEIGHT : ℚ := 700

/-- `GAME_CONFIG.TANK_RADIUS` -/
def TANK_RADIUS : ℚ := 15

/-- `GAME_CONFIG.BULLET_RADIUS` -/
def BULLET_RADIUS : ℚ := 10

/-- `GAME_CONFIG.BULLET_SPEED` -/
def BULLET_SPEED : ℚ := 35

/-- `GAME_CONFIG.BULLET_DAMAGE` -/
def BULLET_DAMAGE : ℚ := 25

/-- `GAME_CONFIG.MAX_HEALTH` -/
def MAX_HEALTH : ℚ := 100

/-- `GAME_CONFIG.TANK_SPEED` -/
def TANK_SPEED : ℚ := 30

/-- `GAME_CONFIG.TANK_BOOST_MULTIPLIER` (1.8) -/
def TANK_BOOST_MULTIPLIER : ℚ := 9 / 5

/-- `GAME_CONFIG.FRICTION` (0.92) -/
def FRICTION : ℚ := 23 / 25

/-- `GAME_CONFIG.RESPAWN_TIME` (ms) -/
def RESPAWN_TIME : ℚ := 3000

/-- `GAME_CONFIG.BULLET_LIFETIME` (ms) -/
def BULLET_LIFETIME : ℚ := 2000

/-- `GAME_CONFIG.REPAIR_AMOUNT` -/
def REPAIR_AMOUNT : ℚ := 10

/-- `GAME_CONFIG.REPAIR_COOLDOWN` (ms) -/
def REPAIR_COOLDOWN : ℚ := 5000

/-- A JavaScript value as it may arrive in the `boost` field of a `move`
payload: absent (`undefined`), a boolean, or a number. -/
inductive JsVal where
  | undef : JsVal
  | bool (b : Bool) : JsVal
  | num (q : ℚ) : JsVal
deriving DecidableEq

/-- JS truthiness of a `JsVal` (`undefined` and `false` and `0` are falsy). -/
def JsVal.truthy : JsVal → Bool
  | .undef => false
  | .bool b => b
  | .num q => decide (q ≠ 0)

/-- The numeric factor produced by `input.boost || 1` when used in a
multiplication: if `boost` is falsy the `||` yields `1`; a truthy boolean
coerces to `1` under `*`; a truthy number is itself. -/
def boostFactor (v : JsVal) : ℚ :=
  if v.truthy then
    match v with
    | .undef => 1
    | .bool _ => 1
    | .num q => q
  else 1

/-- The `move` payload `{dx, dy, boost?}`. -/
structure Input where
  dx : ℚ
  dy : ℚ
  boost : JsVal
deriving DecidableEq

/-- The `Player` class state (`src/server.js`, constructor lines 83-98). -/
structure Player where
  id : String
  x : ℚ
  y : ℚ
  vx : ℚ
  vy : ℚ
  angle : ℚ
  targetAngle : ℚ
  hp : ℚ
  score : ℚ
  name : String
  isAlive : Bool
  respawnTime : ℚ
  lastShot : ℚ
  shootCooldown : ℚ
deriving DecidableEq

/-- `new Player(id, x, y)`. -/
def Player.mk0 (id : String) (x y : ℚ) : Player :=
  { id := id, x := x, y := y, vx := 0, vy := 0, angle := 0, targetAngle := 0,
    hp := MAX_HEALTH, score := 0, name := "Player_" ++ id.take 4,
    isAlive := true, respawnTime := 0, lastShot := 0, shootCooldown := 300 }

/-- `Player.respawn()`; `rx, ry` are the two `Math.random()` results. -/
def Player.respawn (p : Player) (rx ry : ℚ) : Player :=
  { p with isAlive := true, hp := MAX_HEALTH,
           x := rx * (ARENA_WIDTH - 200) + 100,
           y := ry * (ARENA_HEIGHT - 200) + 100,
           vx := 0, vy := 0, angle := 0, targetAngle := 0 }

/-- `Player.update(deltaTime)`; `now` is `Date.now()`, `rx, ry` the
`Math.random()` results consumed if a respawn happens, and `na` the oracle
for the while-loop normalisation of the heading difference into `(-π, π]`. -/
def Player.update (na : ℚ → ℚ) (p : Player) (dt now rx ry : ℚ) : Player :=
  if p.isAlive then
    let vx := p.vx * FRICTION
    let vy := p.vy * FRICTION
    let x := p.x + vx * dt
    let y := p.y + vy * dt
    let angle := p.angle + na (p.targetAngle - p.angle) * (2 / 10)
    { p with vx := vx, vy := vy,
             x := max TANK_RADIUS (min (ARENA_WIDTH - TANK_RADIUS) x),
             y := max TANK_RADIUS (min (ARENA_HEIGHT - TANK_RADIUS) y),
             angle := angle }
  else if now > p.respawnTime then p.respawn rx ry else p

/-- `Player.applyInput(input)`; `at2` is the `Math.atan2` oracle. -/
def Player.applyInput (at2 : ℚ → ℚ → ℚ) (p : Player) (input : Input) : Player :=
  if p.isAlive then
    let speed := TANK_SPEED * boostFactor input.boost
    if input.dx ≠ 0 ∨ input.dy ≠ 0 then
      let vx := input.dx * speed
      let vy := input.dy * speed
      { p with vx := vx, vy := vy, targetAngle := at2 vy vx }
    else p
  else p

/-- The bullet-descriptor object returned by `Player.shoot()` /
the `Bullet` class state (fields copied by `Object.assign`). -/
structure Bullet where
  x : ℚ
  y : ℚ
  vx : ℚ
  vy : ℚ
  owner : String
  createdAt : ℚ
  angle : ℚ
deriving DecidableEq

/-- `Player.shoot()`; `now` is `Date.now()`, and `cv, sv` are the oracle
values of `Math.cos this.angle` and `Math.sin this.angle`. -/
def Player.shoot (p : Player) (now cv sv : ℚ) : Player × Option Bullet :=
  if p.isAlive then
    if now - p.lastShot < p.shootCooldown then (p, none)
    else
      let cannonLength : ℚ := 25
      ({ p with lastShot := now },
       some { x := p.x + cv * cannonLength, y := p.y + sv * cannonLength,
              vx := cv * BULLET_SPEED, vy := sv * BULLET_SPEED,
              owner := p.id, createdAt := now, angle := p.angle })
  else (p, none)

/-- `Player.die()`; `now` is `Date.now()`. -/
def Player.die (p : Player) (now : ℚ) : Player :=
  { p with isAlive := false, hp := 0, respawnTime := now + RESPAWN_TIME,
           vx := 0, vy := 0 }

/-- `Player.takeDamage(damage, attackerId)` restricted to the victim's own
state: returns the updated player and whether this call caused death.
(The attacker-score side effect lives in `creditKill` below.) -/
def Player.takeDamage (p : Player) (damage now : ℚ) : Player × Bool :=
  if p.isAlive then
    let p1 := { p with hp := p.hp - damage }
    if p1.hp ≤ 0 then (p1.die now, true) else (p1, false)
  else (p, false)

/-- `Player.repair()`; `lastRep` is this player's entry in the global
`lastRepairTime` map (`none` when absent) and `now` is `Date.now()`.
Returns the updated player, the updated map entry, and the result.
The JS guard `lastRepairTime[this.id] && now - lastRepairTime[this.id] <
REPAIR_COOLDOWN` treats a stored `0` as falsy. -/
def Player.repair (p : Player) (lastRep : Option ℚ) (now : ℚ) :
    Player × Option ℚ × Bool :=
  if p.isAlive then
    match lastRep with
    | some t =>
      if t ≠ 0 ∧ now - t < REPAIR_COOLDOWN then (p, lastRep, false)
      else ({ p with hp := min MAX_HEALTH (p.hp + REPAIR_AMOUNT) }, some now, true)
    | none => ({ p with hp := min MAX_HEALTH (p.hp + REPAIR_AMOUNT) }, some now, true)
  else (p, lastRep, false)

/-- The record produced by `Player.toJSON()` for the `state` broadcast. -/
structure TankSnap where
  id : String
  x : ℚ
  y : ℚ
  angle : ℚ
  hp : ℚ
  score : ℚ
  name : String
  isAlive : Bool
  vx : ℚ
  vy : ℚ
deriving DecidableEq

/-- `Player.toJSON()`. -/
def Player.toJSON (p : Player) : TankSnap :=
  { id := p.id, x := p.x, y := p.y, angle := p.angle, hp := p.hp,
    score := p.score, name := p.name, isAlive := p.isAlive,
    vx := p.vx, vy := p.vy }

/-- `Bullet.update(deltaTime)`: integrates position, then reports `false`
(remove) when out of the 50-unit-expanded bounds or older than
`BULLET_LIFETIME`; `now` is `Date.now()`. -/
def Bullet.update (b : Bullet) (dt now : ℚ) : Bullet × Bool :=
  let b' := { b with x := b.x + b.vx * dt, y := b.y + b.vy * dt }
  (b', !(decide (b'.x < -50) || decide (b'.x > ARENA_WIDTH + 50) ||
         decide (b'.y < -50) || decide (b'.y > ARENA_HEIGHT + 50) ||
         decide (now - b.createdAt > BULLET_LIFETIME)))

/-- Tank-vs-tank resolution for one pair (`gameLoop` lines 392-419), given
the value `dist` of `Math.sqrt(dx*dx + dy*dy)`.  Using
`cos (atan2 dy dx) = dx / dist` and `sin (atan2 dy dx) = dy / dist` for
`dist > 0`, and `atan2 0 0 = 0` (so `cos = 1`, `sin = 0`) at `dist = 0`. -/
def collidePair (p1 p2 : Player) (dist : ℚ) : Player × Player :=
  if p1.isAlive && p2.isAlive then
    let dx := p1.x - p2.x
    let dy := p1.y - p2.y
    let minDist := TANK_RADIUS * 2
    if dist < minDist then
      let c := if dist = 0 then 1 else dx / dist
      let si := if dist = 0 then 0 else dy / dist
      let targetX := p1.x + c * minDist
      let targetY := p1.y + si * minDist
      let ax := (targetX - p2.x) * (1 / 10)
      let ay := (targetY - p2.y) * (1 / 10)
      let overlap := (minDist - dist) / 2
      ({ p1 with vx := p1.vx - ax, vy := p1.vy - ay,
                 x := p1.x + c * overlap, y := p1.y + si * overlap },
       { p2 with vx := p2.vx + ax, vy := p2.vy + ay,
                 x := p2.x - c * overlap, y := p2.y - si * overlap })
    else (p1, p2)
  else (p1, p2)

/-- One pair step of the tank-vs-tank loop: computes the distance through
the `Math.sqrt` oracle `s` and applies `collidePair`. -/
def pairStep (s : ℚ → ℚ) (p1 p2 : Player) : Player × Player :=
  collidePair p1 p2 (s ((p1.x - p2.x) * (p1.x - p2.x) + (p1.y - p2.y) * (p1.y - p2.y)))

/-- Inner loop `for j in i+1..n-1`: resolves `p` against each element of
`rest` in order, threading the mutations. -/
def resolveRow (s : ℚ → ℚ) (p : Player) : List Player → Player × List Player
  | [] => (p, [])
  | q :: qs =>
    let pq := pairStep s p q
    let rest := resolveRow s pq.1 qs
    (rest.1, pq.2 :: rest.2)

/-- Outer loop `for i in 0..n-1` of the tank-vs-tank resolution, with a
fuel argument for structural recursion (`resolveRow` preserves the list
length, so fuel `ps.length` runs the loop to completion). -/
def resolveAllFuel (s : ℚ → ℚ) : ℕ → List Player → List Player
  | 0, ps => ps
  | _ + 1, [] => []
  | n + 1, p :: ps =>
    let row := resolveRow s p ps
    row.1 :: resolveAllFuel s n row.2

/-- The tank-vs-tank resolution (`gameLoop` lines 386-421): pairs are
processed in lexicographic index order, each seeing the current (already
mutated) state. -/
def resolveAll (s : ℚ → ℚ) (ps : List Player) : List Player :=
  resolveAllFuel s ps.length ps

/-- The world state: the `players` registry (in object-key insertion
order) and the `bullets` array. -/
structure World where
  players : List Player
  bullets : List Bullet
deriving DecidableEq

/-- `players[attackerId].score += 100` when the victim died and the
attacker is still registered (`takeDamage` lines 175-178). -/
def creditKill (ps : List Player) (attackerId : String) : List Player :=
  ps.map (fun q => if q.id = attackerId then { q with score := q.score + 100 } else q)

/-- The scan `for (const playerId in players)` (lines 352-360): index of
the first player that is alive, is not the bullet's owner, and is within
`TANK_RADIUS + BULLET_RADIUS` of the bullet (distance via oracle `s`). -/
def findHitIdx (s : ℚ → ℚ) (ps : List Player) (b : Bullet) : Option ℕ :=
  ps.findIdx? (fun p =>
    p.isAlive && p.id != b.owner &&
      decide (s ((b.x - p.x) * (b.x - p.x) + (b.y - p.y) * (b.y - p.y)) <
        TANK_RADIUS + BULLET_RADIUS))

/-- The hit branch (lines 360-380): damage the struck player and, if it
died, credit the attacker. -/
def applyHit (ps : List Player) (i : ℕ) (attackerId : String) (now : ℚ) :
    List Player :=
  match ps.get? i with
  | none => ps
  | some v =>
    let r := v.takeDamage BULLET_DAMAGE now
    let ps' := ps.set i r.1
    if r.2 then creditKill ps' attackerId else ps'

/-- One iteration of the backwards bullet loop (lines 342-383) for one
bullet, threading the player list and the kept-bullet accumulator. -/
def bulletStep (s : ℚ → ℚ) (dt now : ℚ) (b : Bullet)
    (acc : List Player × List Bullet) : List Player × List Bullet :=
  let u := b.update dt now
  if u.2 then
    match findHitIdx s acc.1 u.1 with
    | none => (acc.1, u.1 :: acc.2)
    | some i => (applyHit acc.1 i u.1.owner now, acc.2)
  else acc

/-- The bullet update/collision phase: the JS loop runs from the last
index down to index 0, so it is a right fold over the bullet array;
surviving bullets keep their relative order. -/
def bulletPhase (s : ℚ → ℚ) (dt now : ℚ) (bs : List Bullet)
    (ps : List Player) : List Player × List Bullet :=
  bs.foldr (bulletStep s dt now) (ps, [])

/-- The player-integration phase `Object.values(players).forEach(p =>
p.update(deltaTime))` (lines 337-339), with per-player `Math.random()`
pairs drawn from `rnd` at the player's index. -/
def updateFrom (na : ℚ → ℚ) (rnd : ℕ → ℚ × ℚ) (dt now : ℚ) :
    ℕ → List Player → List Player
  | _, [] => []
  | i, p :: ps =>
    p.update na dt now (rnd i).1 (rnd i).2 :: updateFrom na rnd dt now (i + 1) ps

/-- One `gameLoop` body up to (and including) the state broadcast
(lines 331-430): player integration, bullet phase, tank-vs-tank
resolution.  `rnd i` gives the `Math.random()` pair consumed if player
`i` respawns this tick.  The result is the world as serialized into the
`state` broadcast. -/
def gameTick (s na : ℚ → ℚ) (rnd : ℕ → ℚ × ℚ) (w : World) (dt now : ℚ) :
    World :=
  let ps1 := updateFrom na rnd dt now 0 w.players
  let pb := bulletPhase s dt now w.bullets ps1
  { players := resolveAll s pb.1, bullets := pb.2 }

/-- The secondary sweep after the broadcast (lines 432-438): drop bullets
whose age exceeds `BULLET_LIFETIME`. -/
def sweepBullets (w : World) (now : ℚ) : World :=
  { w with bullets := w.bullets.filter (fun b => !decide (now - b.createdAt > BULLET_LIFETIME)) }

/-- The `state` broadcast payload's players field (line 424-430). -/
def snapshot (w : World) : List TankSnap :=
  w.players.map Player.toJSON

/-- An operation on one tank's state, for stating invariants over
arbitrary operation sequences.  The per-tank state is the `Player`
together with its entry in the global `lastRepairTime` map.  `hit`
carries the damage amount and `Date.now()`; `fix` is a `repair` request
at a given time; `reborn` is a direct `respawn` with its two
`Math.random()` results; `step` is one `update` with `dt`, `Date.now()`,
the two `Math.random()` results and the oracle value `nd` of the
normalised heading difference. -/
inductive Op where
  | hit (d now : ℚ) : Op
  | fix (now : ℚ) : Op
  | reborn (rx ry : ℚ) : Op
  | step (dt now rx ry nd : ℚ) : Op

/-- Validity of an operation: the only damage amount the server ever
passes to `takeDamage` is `BULLET_DAMAGE`, a nonnegative number; other
operations are unconstrained. -/
def Op.ok : Op → Prop
  | .hit d _ => 0 ≤ d
  | _ => True

/-- Apply one operation to a tank's state. -/
def applyOp (s : Player × Option ℚ) : Op → Player × Option ℚ
  | .hit d now => ((s.1.takeDamage d now).1, s.2)
  | .fix now => let r := s.1.repair s.2 now; (r.1, r.2.1)
  | .reborn rx ry => (s.1.respawn rx ry, s.2)
  | .step dt now rx ry nd => (s.1.update (fun _ => nd) dt now rx ry, s.2)

/-- The health/liveness invariant of a tank. -/
def hpOK (p : Player) : Prop :=
  0 ≤ p.hp ∧ p.hp ≤ MAX_HEALTH ∧ (p.hp = 0 ↔ p.isAlive = false)

/-- Floor square root on naturals, by the binary recurrence
`sqrt n = 2 * sqrt (n / 4)` plus a one-step correction; the first
argument is fuel (any fuel `≥ n` suffices), keeping the recursion
structural and shallow so concrete runs reduce inside `decide`. -/
def natSqrtAux : ℕ → ℕ → ℕ
  | 0, _ => 0
  | f + 1, n =>
    if n < 2 then n
    else
      let r := 2 * natSqrtAux f (n / 4)
      if (r + 1) * (r + 1) ≤ n then r + 1 else r

/-- Floor square root on naturals (structural recursion via fuel). -/
def natSqrt (n : ℕ) : ℕ := natSqrtAux n n

/-- A concrete stand-in for the `Math.sqrt` oracle, exact on perfect
squares of naturals (the only points at which concrete runs below use
it): `qSqrt (n^2) = n` for natural `n`. -/
def qSqrt (q : ℚ) : ℚ :=
  (natSqrt q.num.toNat : ℚ)

set_option maxRecDepth 4000

/-! Helper lemmas (shared): exactness of the concrete `Math.sqrt`
stand-in at the perfect squares used by the concrete runs below. -/

theorem qSqrt_at_0 : qSqrt 0 = 0 := by decide

theorem qSqrt_at_25 : qSqrt 25 = 5 := by decide

theorem qSqrt_at_100 : qSqrt 100 = 10 := by decide

theorem qSqrt_at_900 : qSqrt 900 = 30 := by decide

theorem qSqrt_at_2025 : qSqrt 2025 = 45 := by decide

/-- C1 (amended): `applyInput` is ignored when the tank is dead; a zero
direction vector leaves the tank unchanged (velocity in particular); a
non-zero direction sets velocity to `direction * TANK_SPEED * m` where
`m` is the client-sent `boost` value when it is a truthy number and `1`
otherwise — in particular a boolean boost flag and an absent boost field
both give `m = 1`, and the config `TANK_BOOST_MULTIPLIER` is never
applied — and sets the target heading to the angle (`Math.atan2 vy vx`)
of the new velocity. -/
theorem applyInput_velocity (at2 : ℚ → ℚ → ℚ) (p : Player) (i : Input) :
    (p.isAlive = false → p.applyInput at2 i = p) ∧
    (i.dx = 0 → i.dy = 0 → p.applyInput at2 i = p) ∧
    (p.isAlive = true → (i.dx ≠ 0 ∨ i.dy ≠ 0) →
      p.applyInput at2 i =
        { p with vx := i.dx * (TANK_SPEED * boostFactor i.boost),
                 vy := i.dy * (TANK_SPEED * boostFactor i.boost),
                 targetAngle := at2 (i.dy * (TANK_SPEED * boostFactor i.boost))
                                    (i.dx * (TANK_SPEED * boostFactor i.boost)) }) ∧
    (∀ b : Bool, boostFactor (.bool b) = 1) ∧ boostFactor .undef = 1 := by
  refine ⟨fun h => ?_, fun h1 h2 => ?_, fun ha hd => ?_, fun b => ?_, rfl⟩
  · simp [Player.applyInput, h]
  · simp [Player.applyInput, h1, h2]
  · simp only [Player.applyInput, ha, if_true]
    rw [if_pos hd]
  · cases b <;> rfl

/-- Witness for C1's amended theorem at a concrete alive tank and a
boost-flagged input. -/
theorem applyInput_velocity_witness :
    (Player.mk0 "aaaa" 100 100).applyInput (fun _ _ => 0) ⟨1, 0, .bool true⟩ =
      { Player.mk0 "aaaa" 100 100 with
        vx := 1 * (TANK_SPEED * boostFactor (.bool true)),
        vy := 0 * (TANK_SPEED * boostFactor (.bool true)),
        targetAngle := (fun _ _ => (0 : ℚ))
          (0 * (TANK_SPEED * boostFactor (.bool true)))
          (1 * (TANK_SPEED * boostFactor (.bool true))) } :=
  (applyInput_velocity (fun _ _ => 0) (Player.mk0 "aaaa" 100 100)
    ⟨1, 0, .bool true⟩).2.2.1 rfl (Or.inl one_ne_zero)

/-- Counterexample for C1 as stated: with the boost flag set
(`boost: true`) on an alive tank moving in direction `(1, 0)`, the code
sets `vx` to `TANK_SPEED` (30), not to
`TANK_SPEED * TANK_BOOST_MULTIPLIER` (54) as the claim requires. -/
theorem applyInput_boost_cex :
    ((Player.mk0 "aaaa" 100 100).applyInput (fun _ _ => 0)
      ⟨1, 0, .bool true⟩).vx = TANK_SPEED ∧
    TANK_SPEED * TANK_BOOST_MULTIPLIER ≠ TANK_SPEED := by
  constructor
  · norm_num [Player.applyInput, Player.mk0, boostFactor, JsVal.truthy, TANK_SPEED]
  · norm_num [TANK_SPEED, TANK_BOOST_MULTIPLIER]

/-- C3 (amended): for an overlapping pair of alive tanks at distance
`0 < dist < 2 * TANK_RADIUS`, with `u = ((x1-x2)/dist, (y1-y2)/dist)`
the unit vector from tank2 to tank1 (the direction of the angle
`atan2 (y1-y2) (x1-x2)`), the resolution pushes the tanks apart along
`u` by half the overlap each, and nudges each tank's velocity toward
the OTHER tank — tank1's by `-a • u`, tank2's by `+a • u` with
`a = (dist + 2*TANK_RADIUS)/10 > 0` (10% of the correction vector
`target - pos2`, which points from tank2 past tank1) — not toward
separation as the claim states. -/
theorem collidePair_push_velocity (p1 p2 : Player) (dist : ℚ)
    (h1 : p1.isAlive = true) (h2 : p2.isAlive = true)
    (hd : 0 < dist) (hlt : dist < TANK_RADIUS * 2)
    (hpy : dist * dist =
      (p1.x - p2.x) * (p1.x - p2.x) + (p1.y - p2.y) * (p1.y - p2.y)) :
    (collidePair p1 p2 dist).1.x
        = p1.x + (p1.x - p2.x) / dist * ((TANK_RADIUS * 2 - dist) / 2) ∧
    (collidePair p1 p2 dist).1.y
        = p1.y + (p1.y - p2.y) / dist * ((TANK_RADIUS * 2 - dist) / 2) ∧
    (collidePair p1 p2 dist).2.x
        = p2.x - (p1.x - p2.x) / dist * ((TANK_RADIUS * 2 - dist) / 2) ∧
    (collidePair p1 p2 dist).2.y
        = p2.y - (p1.y - p2.y) / dist * ((TANK_RADIUS * 2 - dist) / 2) ∧
    (collidePair p1 p2 dist).1.vx
        = p1.vx - (dist + TANK_RADIUS * 2) / 10 * ((p1.x - p2.x) / dist) ∧
    (collidePair p1 p2 dist).1.vy
        = p1.vy - (dist + TANK_RADIUS * 2) / 10 * ((p1.y - p2.y) / dist) ∧
    (collidePair p1 p2 dist).2.vx
        = p2.vx + (dist + TANK_RADIUS * 2) / 10 * ((p1.x - p2.x) / dist) ∧
    (collidePair p1 p2 dist).2.vy
        = p2.vy + (dist + TANK_RADIUS * 2) / 10 * ((p1.y - p2.y) / dist) := by
  have hne : dist ≠ 0 := ne_of_gt hd
  simp only [collidePair, h1, h2, Bool.and_self, if_true, if_pos hlt, if_neg hne]
  refine ⟨by ring, by ring, by ring, by ring, ?_, ?_, ?_, ?_⟩ <;>
    · field_simp
      ring

/-- Witness for C3's amended theorem at a concrete 3-4-5 overlap. -/
theorem collidePair_push_velocity_witness :
    (0 : ℚ) < 5 ∧ (5 : ℚ) < TANK_RADIUS * 2 ∧
    ((5 : ℚ) * 5 = (103 - 100) * (103 - 100) + (104 - 100) * (104 - 100)) ∧
    (collidePair (Player.mk0 "aaaa" 103 104) (Player.mk0 "bbbb" 100 100) 5).1.x
      = 103 + (103 - 100) / 5 * ((TANK_RADIUS * 2 - 5) / 2) := by
  refine ⟨by norm_num, by norm_num [TANK_RADIUS], by norm_num, ?_⟩
  have h := collidePair_push_velocity (Player.mk0 "aaaa" 103 104)
    (Player.mk0 "bbbb" 100 100) 5 rfl rfl (by norm_num)
    (by norm_num [TANK_RADIUS]) (by norm_num [Player.mk0])
  simpa [Player.mk0] using h.1

/-- Counterexample for C3 as stated: tanks at `(100,100)` and `(95,100)`
(overlap, separation direction for tank1 is `+x`): the code changes
tank1's `vx` by `-7/2`, i.e. toward tank2, while the claim ("toward
separation, away from the other tank", here `+7/2`) requires a
nonnegative change. -/
theorem collidePair_velocity_cex :
    (collidePair (Player.mk0 "aaaa" 100 100) (Player.mk0 "bbbb" 95 100) 5).1.vx
        - (Player.mk0 "aaaa" 100 100).vx = -(7 / 2) ∧
    (Player.mk0 "aaaa" 100 100).x - (Player.mk0 "bbbb" 95 100).x = 5 ∧
    ¬((0 : ℚ) ≤ -(7 / 2)) := by
  refine ⟨?_, by norm_num [Player.mk0], by norm_num⟩
  norm_num [collidePair, Player.mk0, TANK_RADIUS]

/-- C7: every failure condition is a silent no-op with its defined
return signal: `shoot` while dead or on cooldown returns `none` and
leaves the player (in particular `lastShot`) unchanged; `repair` while
dead or on cooldown returns `false` and changes neither the player nor
the repair timestamp; `takeDamage` on a dead tank returns `false` (no
kill) and leaves the player unchanged.  (All embedded operations are
total functions: no operation throws.) -/
theorem failure_noops (p : Player) (lr : Option ℚ) (now t d cv sv : ℚ) :
    (p.isAlive = false → p.shoot now cv sv = (p, none)) ∧
    (p.isAlive = true → now - p.lastShot < p.shootCooldown →
      p.shoot now cv sv = (p, none)) ∧
    (p.isAlive = false → p.repair lr now = (p, lr, false)) ∧
    (p.isAlive = true → lr = some t → t ≠ 0 → now - t < REPAIR_COOLDOWN →
      p.repair lr now = (p, lr, false)) ∧
    (p.isAlive = false → p.takeDamage d now = (p, false)) := by
  refine ⟨fun h => ?_, fun ha hc => ?_, fun h => ?_, fun ha hl ht hc => ?_,
    fun h => ?_⟩
  · simp [Player.shoot, h]
  · simp [Player.shoot, ha, hc]
  · simp [Player.repair, h]
  · subst hl
    simp [Player.repair, ha, ht, hc]
  · simp [Player.takeDamage, h]

/-- Witness for C7 covering all five no-op branches at concrete
inputs. -/
theorem failure_noops_witness :
    ({ Player.mk0 "aaaa" 100 100 with isAlive := false }.shoot 1000 1 0
      = ({ Player.mk0 "aaaa" 100 100 with isAlive := false }, none)) ∧
    ((Player.mk0 "bbbb" 100 100).shoot 100 1 0
      = (Player.mk0 "bbbb" 100 100, none)) ∧
    ({ Player.mk0 "aaaa" 100 100 with isAlive := false }.repair (some 50) 1000
      = ({ Player.mk0 "aaaa" 100 100 with isAlive := false }, some 50, false)) ∧
    ((Player.mk0 "bbbb" 100 100).repair (some 50) 1000
      = (Player.mk0 "bbbb" 100 100, some 50, false)) ∧
    ({ Player.mk0 "aaaa" 100 100 with isAlive := false }.takeDamage 25 1000
      = ({ Player.mk0 "aaaa" 100 100 with isAlive := false }, false)) :=
  ⟨(failure_noops _ (some 50) 1000 50 25 1 0).1 rfl,
   (failure_noops _ (some 50) 100 50 25 1 0).2.1 rfl (by norm_num [Player.mk0]),
   (failure_noops _ (some 50) 1000 50 25 1 0).2.2.1 rfl,
   (failure_noops _ (some 50) 1000 50 25 1 0).2.2.2.1 rfl rfl (by norm_num)
     (by norm_num [REPAIR_COOLDOWN]),
   (failure_noops _ (some 50) 1000 50 25 1 0).2.2.2.2 rfl⟩

/-- C2 (amended): after `Player.update` (the integration phase of a
tick), every tank that is alive has both coordinates inside
`[TANK_RADIUS, ARENA_DIM - TANK_RADIUS]` — the alive branch clamps, and
the respawn branch places the tank at random coordinates in
`[100, ARENA_DIM - 100)`.  The tank-vs-tank resolution that runs later
in the tick does NOT re-clamp, so the claim's bound on the broadcast
snapshot fails (see the counterexample). -/
theorem update_alive_in_bounds (na : ℚ → ℚ) (p : Player) (dt now rx ry : ℚ)
    (hrx0 : 0 ≤ rx) (hrx1 : rx < 1) (hry0 : 0 ≤ ry) (hry1 : ry < 1)
    (halive : (p.update na dt now rx ry).isAlive = true) :
    TANK_RADIUS ≤ (p.update na dt now rx ry).x ∧
    (p.update na dt now rx ry).x ≤ ARENA_WIDTH - TANK_RADIUS ∧
    TANK_RADIUS ≤ (p.update na dt now rx ry).y ∧
    (p.update na dt now rx ry).y ≤ ARENA_HEIGHT - TANK_RADIUS := by
  by_cases hA : p.isAlive
  · simp only [Player.update, hA, if_true]
    refine ⟨le_max_left _ _, max_le (by norm_num [TANK_RADIUS, ARENA_WIDTH])
      (min_le_left _ _), le_max_left _ _,
      max_le (by norm_num [TANK_RADIUS, ARENA_HEIGHT]) (min_le_left _ _)⟩
  · simp only [Player.update, hA, if_false, Bool.false_eq_true] at halive ⊢
    by_cases hR : now > p.respawnTime
    · simp only [if_pos hR, Player.respawn] at halive ⊢
      norm_num [TANK_RADIUS, ARENA_WIDTH, ARENA_HEIGHT]
      constructor
      · nlinarith
      constructor
      · nlinarith
      constructor
      · nlinarith
      · nlinarith
    · rw [if_neg hR] at halive
      simp [hA] at halive

/-- Witness for C2's amended theorem: a concrete alive tank beyond the
right wall is clamped back into bounds by `update`. -/
theorem update_alive_in_bounds_witness :
    (({ Player.mk0 "aaaa" 2000 100 with vx := 0 }.update (fun d => d)
        (1 / 120) 10000 (1 / 2) (1 / 2)).isAlive = true) ∧
    TANK_RADIUS ≤ ({ Player.mk0 "aaaa" 2000 100 with vx := 0 }.update
        (fun d => d) (1 / 120) 10000 (1 / 2) (1 / 2)).x ∧
    ({ Player.mk0 "aaaa" 2000 100 with vx := 0 }.update (fun d => d)
        (1 / 120) 10000 (1 / 2) (1 / 2)).x ≤ ARENA_WIDTH - TANK_RADIUS := by
  have halive : ({ Player.mk0 "aaaa" 2000 100 with vx := 0 }.update
      (fun d => d) (1 / 120) 10000 (1 / 2) (1 / 2)).isAlive = true := by
    simp [Player.update, Player.mk0]
  have h := update_alive_in_bounds (fun d => d)
    { Player.mk0 "aaaa" 2000 100 with vx := 0 } (1 / 120) 10000 (1 / 2) (1 / 2)
    (by norm_num) (by norm_num) (by norm_num) (by norm_num) halive
  exact ⟨halive, h.1, h.2.1⟩

/-- Counterexample for C2 as stated: two alive tanks at `(15,100)` and
`(20,100)` are each in bounds after integration, but the tank-vs-tank
resolution pushes the first one to `x = 5/2 < TANK_RADIUS`, and that is
the position serialized into the `state` broadcast of this very tick. -/
theorem snapshot_out_of_bounds_cex :
    (snapshot (gameTick qSqrt (fun d => d) (fun _ => (1 / 2, 1 / 2))
        ⟨[Player.mk0 "aaaa" 15 100, Player.mk0 "bbbb" 20 100], []⟩
        (1 / 120) 10000)).map TankSnap.x = [5 / 2, 65 / 2] ∧
    ¬(TANK_RADIUS ≤ (5 / 2 : ℚ)) := by
  constructor
  · norm_num [snapshot, gameTick, updateFrom, bulletPhase, resolveAll,
      resolveAllFuel, resolveRow, pairStep, collidePair, Player.update,
      Player.toJSON, Player.mk0, TANK_RADIUS, ARENA_WIDTH, ARENA_HEIGHT,
      FRICTION, qSqrt_at_25]
  · norm_num [TANK_RADIUS]

/-- C6: with a 300 ms cooldown (the constructor's value), a first `fire`
off cooldown yields a projectile; a second call strictly less than
300 ms later yields none; a second call more than 300 ms later yields a
projectile; and `fire` on a dead tank yields none. -/
theorem shoot_cooldown_enforced (p : Player) (t1 t2 cv sv cv2 sv2 : ℚ)
    (ha : p.isAlive = true) (hcd : p.shootCooldown = 300)
    (h1 : ¬(t1 - p.lastShot < 300)) :
    (∃ b, (p.shoot t1 cv sv).2 = some b) ∧
    (t2 - t1 < 300 → ((p.shoot t1 cv sv).1.shoot t2 cv2 sv2).2 = none) ∧
    (300 < t2 - t1 → ∃ b, ((p.shoot t1 cv sv).1.shoot t2 cv2 sv2).2 = some b) ∧
    (∀ q : Player, q.isAlive = false → (q.shoot t2 cv sv).2 = none) := by
  have hfire : (p.shoot t1 cv sv).1 = { p with lastShot := t1 } ∧
      ∃ b, (p.shoot t1 cv sv).2 = some b := by
    rw [Player.shoot]
    rw [hcd] at *
    simp [ha, h1]
  refine ⟨hfire.2, fun hlt => ?_, fun hgt => ?_, fun q hq => ?_⟩
  · rw [hfire.1, Player.shoot]
    simp [ha, hcd, hlt]
  · rw [hfire.1, Player.shoot]
    have : ¬(t2 - t1 < 300) := by linarith
    simp [ha, hcd, this]
  · simp [Player.shoot, hq]

/-- Witness for C6 at concrete times 500, 700 (blocked) and 500, 900
(allowed), plus the dead-tank case. -/
theorem shoot_cooldown_enforced_witness :
    (∃ b, ((Player.mk0 "aaaa" 100 100).shoot 500 1 0).2 = some b) ∧
    ((((Player.mk0 "aaaa" 100 100).shoot 500 1 0).1.shoot 700 1 0).2 = none) ∧
    (∃ b, (((Player.mk0 "aaaa" 100 100).shoot 500 1 0).1.shoot 900 1 0).2
      = some b) ∧
    (({ Player.mk0 "aaaa" 100 100 with isAlive := false }.shoot 900 1 0).2
      = none) :=
  ⟨((shoot_cooldown_enforced (Player.mk0 "aaaa" 100 100) 500 700 1 0 1 0 rfl rfl
      (by norm_num [Player.mk0]))).1,
   ((shoot_cooldown_enforced (Player.mk0 "aaaa" 100 100) 500 700 1 0 1 0 rfl rfl
      (by norm_num [Player.mk0]))).2.1 (by norm_num),
   ((shoot_cooldown_enforced (Player.mk0 "aaaa" 100 100) 500 900 1 0 1 0 rfl rfl
      (by norm_num [Player.mk0]))).2.2.1 (by norm_num),
   ((shoot_cooldown_enforced (Player.mk0 "aaaa" 100 100) 500 900 1 0 1 0 rfl rfl
      (by norm_num [Player.mk0]))).2.2.2 _ rfl⟩

/-- C9: `die` at time `t` schedules the respawn at `t + RESPAWN_TIME`
and clears the alive flag; every `update` whose current time is at or
before that timestamp leaves the dead tank completely unchanged (so it
stays dead through any such tick sequence); the first `update` strictly
after the timestamp revives it with `hp = MAX_HEALTH`, zero velocity,
and heading and target heading reset to 0. -/
theorem die_respawn_roundtrip (na : ℚ → ℚ) (p : Player) (t dt rx ry : ℚ) :
    (p.die t).respawnTime = t + RESPAWN_TIME ∧
    (p.die t).isAlive = false ∧
    (∀ times : List ℚ, (∀ u ∈ times, u ≤ t + RESPAWN_TIME) →
      times.foldl (fun q u => q.update na dt u rx ry) (p.die t) = p.die t) ∧
    (∀ now, t + RESPAWN_TIME < now →
      ((p.die t).update na dt now rx ry).isAlive = true ∧
      ((p.die t).update na dt now rx ry).hp = MAX_HEALTH ∧
      ((p.die t).update na dt now rx ry).vx = 0 ∧
      ((p.die t).update na dt now rx ry).vy = 0 ∧
      ((p.die t).update na dt now rx ry).angle = 0 ∧
      ((p.die t).update na dt now rx ry).targetAngle = 0) := by
  have hdead : (p.die t).isAlive = false := rfl
  have hrt : (p.die t).respawnTime = t + RESPAWN_TIME := rfl
  refine ⟨hrt, hdead, fun times htimes => ?_, fun now hnow => ?_⟩
  · induction times with
    | nil => rfl
    | cons u us ih =>
      have hu : u ≤ t + RESPAWN_TIME := htimes u (List.mem_cons_self u us)
      have hstep : (p.die t).update na dt u rx ry = p.die t := by
        rw [Player.update]
        simp only [hdead, Bool.false_eq_true, if_false]
        rw [if_neg (by rw [hrt]; exact not_lt.mpr hu)]
      simp only [List.foldl_cons, hstep]
      exact ih (fun v hv => htimes v (List.mem_cons_of_mem u hv))
  · rw [Player.update]
    simp only [hdead, Bool.false_eq_true, if_false]
    rw [if_pos (by rw [hrt]; exact hnow)]
    simp [Player.respawn]

/-- Witness for C9: die at `t = 1000`, stay unchanged through ticks at
2000 and 3000 and 4000 (4000 is exactly the respawn timestamp), and
revive at 4001. -/
theorem die_respawn_roundtrip_witness :
    ([2000, 3000, 4000].foldl
        (fun q u => q.update (fun d => d) (1 / 120) u (1 / 2) (1 / 2))
        ((Player.mk0 "aaaa" 100 100).die 1000)
      = (Player.mk0 "aaaa" 100 100).die 1000) ∧
    (((Player.mk0 "aaaa" 100 100).die 1000).update (fun d => d) (1 / 120)
        4001 (1 / 2) (1 / 2)).isAlive = true ∧
    (((Player.mk0 "aaaa" 100 100).die 1000).update (fun d => d) (1 / 120)
        4001 (1 / 2) (1 / 2)).hp = MAX_HEALTH :=
  ⟨(die_respawn_roundtrip (fun d => d) (Player.mk0 "aaaa" 100 100) 1000
      (1 / 120) (1 / 2) (1 / 2)).2.2.1 [2000, 3000, 4000]
      (by intro u hu; fin_cases hu <;> norm_num [RESPAWN_TIME]),
   ((die_respawn_roundtrip (fun d => d) (Player.mk0 "aaaa" 100 100) 1000
      (1 / 120) (1 / 2) (1 / 2)).2.2.2 4001 (by norm_num [RESPAWN_TIME])).1,
   ((die_respawn_roundtrip (fun d => d) (Player.mk0 "aaaa" 100 100) 1000
      (1 / 120) (1 / 2) (1 / 2)).2.2.2 4001 (by norm_num [RESPAWN_TIME])).2.1⟩

/-- C10: on an alive tank with `hp > damage`, `takeDamage` subtracts
exactly the damage from `hp` and changes nothing else (the result is the
record-update of `hp` alone, so position, velocity, heading, target
heading, score, alive flag and `lastShot` are untouched) and reports no
kill; correspondingly, the world-level hit application only replaces the
victim's entry and credits no attacker score. -/
theorem takeDamage_frame (p : Player) (d now : ℚ) (ps : List Player)
    (i : ℕ) (att : String) :
    (p.isAlive = true → d < p.hp →
      p.takeDamage d now = ({ p with hp := p.hp - d }, false)) ∧
    (ps.get? i = some p → p.isAlive = true → BULLET_DAMAGE < p.hp →
      applyHit ps i att now = ps.set i { p with hp := p.hp - BULLET_DAMAGE }) := by
  constructor
  · intro ha hlt
    have h1 : ¬(p.hp - d ≤ 0) := by linarith
    simp [Player.takeDamage, ha, h1]
  · intro hget ha hlt
    have hget' : ps[i]? = some p := by simpa using hget
    have h1 : ¬(p.hp ≤ BULLET_DAMAGE) := not_le.mpr hlt
    simp [applyHit, hget', Player.takeDamage, ha, h1]

/-- Witness for C10 at a concrete full-health tank hit for 25. -/
theorem takeDamage_frame_witness :
    ((Player.mk0 "aaaa" 100 100).takeDamage 25 1000
      = ({ Player.mk0 "aaaa" 100 100 with
            hp := (Player.mk0 "aaaa" 100 100).hp - 25 }, false)) ∧
    (applyHit [Player.mk0 "aaaa" 100 100] 0 "bbbb" 1000
      = [Player.mk0 "aaaa" 100 100].set 0
          { Player.mk0 "aaaa" 100 100 with
            hp := (Player.mk0 "aaaa" 100 100).hp - BULLET_DAMAGE }) :=
  ⟨(takeDamage_frame (Player.mk0 "aaaa" 100 100) 25 1000
      [Player.mk0 "aaaa" 100 100] 0 "bbbb").1 rfl
      (by norm_num [Player.mk0, MAX_HEALTH]),
   (takeDamage_frame (Player.mk0 "aaaa" 100 100) 25 1000
      [Player.mk0 "aaaa" 100 100] 0 "bbbb").2 rfl rfl
      (by norm_num [Player.mk0, BULLET_DAMAGE, MAX_HEALTH])⟩

/-- C5 (amended): for any `Math.sqrt` oracle and any pair, the pair step
applies exactly opposite positional corrections and exactly opposite
velocity corrections to the two tanks, and a two-tank world is resolved
by exactly one application of the pair step.  (Identity of results
across pair enumeration orders fails for three mutually overlapping
tanks, because pairs are processed sequentially on mutated state — see
the counterexample.) -/
theorem collision_corrections_negate (s : ℚ → ℚ) (p1 p2 : Player) :
    (pairStep s p1 p2).1.x - p1.x = -((pairStep s p1 p2).2.x - p2.x) ∧
    (pairStep s p1 p2).1.y - p1.y = -((pairStep s p1 p2).2.y - p2.y) ∧
    (pairStep s p1 p2).1.vx - p1.vx = -((pairStep s p1 p2).2.vx - p2.vx) ∧
    (pairStep s p1 p2).1.vy - p1.vy = -((pairStep s p1 p2).2.vy - p2.vy) ∧
    resolveAll s [p1, p2] = [(pairStep s p1 p2).1, (pairStep s p1 p2).2] := by
  have hmain : ∀ d : ℚ,
      (collidePair p1 p2 d).1.x - p1.x = -((collidePair p1 p2 d).2.x - p2.x) ∧
      (collidePair p1 p2 d).1.y - p1.y = -((collidePair p1 p2 d).2.y - p2.y) ∧
      (collidePair p1 p2 d).1.vx - p1.vx = -((collidePair p1 p2 d).2.vx - p2.vx) ∧
      (collidePair p1 p2 d).1.vy - p1.vy = -((collidePair p1 p2 d).2.vy - p2.vy) := by
    intro d
    simp only [collidePair]
    by_cases h1 : (p1.isAlive && p2.isAlive) = true
    · rw [if_pos h1]
      by_cases h2 : d < TANK_RADIUS * 2
      · rw [if_pos h2]
        refine ⟨?_, ?_, ?_, ?_⟩ <;>
          · dsimp only
            ring
      · rw [if_neg h2]
        refine ⟨?_, ?_, ?_, ?_⟩ <;>
          · dsimp only
            ring
    · rw [if_neg h1]
      refine ⟨?_, ?_, ?_, ?_⟩ <;>
        · dsimp only
          ring
  have h := hmain (s ((p1.x - p2.x) * (p1.x - p2.x) + (p1.y - p2.y) * (p1.y - p2.y)))
  exact ⟨h.1, h.2.1, h.2.2.1, h.2.2.2,
    by simp [resolveAll, resolveAllFuel, resolveRow]⟩

/-- Counterexample for C5 as stated: three collinear tanks at x = 100,
110, 120 (all pairwise overlapping or touching).  Enumerating the pairs
starting from the list `[A, B, C]` leaves tank "aaaa" at `x = 90`, while
the enumeration starting from `[B, C, A]` (the same unordered pairs in a
different order) leaves it at `x = 85`: the resolution is not
order-independent. -/
theorem resolveAll_order_cex :
    (resolveAll qSqrt [Player.mk0 "aaaa" 100 100, Player.mk0 "bbbb" 110 100,
        Player.mk0 "cccc" 120 100]).map (fun p => (p.id, p.x))
      = [("aaaa", 90), ("bbbb", 135), ("cccc", 105)] ∧
    (resolveAll qSqrt [Player.mk0 "bbbb" 110 100, Player.mk0 "cccc" 120 100,
        Player.mk0 "aaaa" 100 100]).map (fun p => (p.id, p.x))
      = [("bbbb", 115), ("cccc", 130), ("aaaa", 85)] ∧
    ((90 : ℚ) ≠ 85) := by
  refine ⟨?_, ?_, by norm_num⟩ <;>
    norm_num [resolveAll, resolveAllFuel, resolveRow, pairStep, collidePair,
      Player.mk0, TANK_RADIUS, qSqrt_at_0, qSqrt_at_100, qSqrt_at_900,
      qSqrt_at_2025]

/-- Helper: the initial player state satisfies the health invariant. -/
theorem hpOK_mk0 (id : String) (x y : ℚ) : hpOK (Player.mk0 id x y) := by
  refine ⟨by norm_num [Player.mk0, MAX_HEALTH], le_refl _, ?_⟩
  simp [Player.mk0, MAX_HEALTH]

/-- Helper: every valid operation preserves the health invariant. -/
theorem hpOK_applyOp (s : Player × Option ℚ) (op : Op) (hok : op.ok)
    (h : hpOK s.1) : hpOK (applyOp s op).1 := by
  obtain ⟨h0, h100, hiff⟩ := h
  have halive_hp : s.1.isAlive = true → 0 < s.1.hp := by
    intro hA
    rcases lt_or_eq_of_le h0 with hlt | heq
    · exact hlt
    · have hdead : s.1.isAlive = false := hiff.mp heq.symm
      rw [hA] at hdead
      exact absurd hdead (by simp)
  cases op with
  | hit d now =>
    have hd : 0 ≤ d := hok
    by_cases hA : s.1.isAlive
    · by_cases hle : s.1.hp - d ≤ 0
      · simp only [applyOp, Player.takeDamage, hA, if_true, if_pos hle]
        unfold hpOK Player.die
        dsimp only
        norm_num [MAX_HEALTH]
      · simp only [applyOp, Player.takeDamage, hA, if_true, if_neg hle]
        have hpos : 0 < s.1.hp - d := lt_of_not_le hle
        unfold hpOK
        dsimp only
        refine ⟨le_of_lt hpos, by linarith, ?_⟩
        simp only [Bool.true_eq_false, iff_false]
        exact ne_of_gt hpos
    · simp only [applyOp, Player.takeDamage, hA, Bool.false_eq_true, if_false]
      exact ⟨h0, h100, hiff⟩
  | fix now =>
    by_cases hA : s.1.isAlive
    · have hppos : 0 < s.1.hp := halive_hp hA
      have hgoal : hpOK { s.1 with hp := min MAX_HEALTH (s.1.hp + REPAIR_AMOUNT) } := by
        unfold hpOK
        dsimp only
        have hmin : (0 : ℚ) < min MAX_HEALTH (s.1.hp + REPAIR_AMOUNT) :=
          lt_min (by norm_num [MAX_HEALTH]) (by norm_num [REPAIR_AMOUNT]; linarith)
        refine ⟨le_of_lt hmin, min_le_left _ _, ?_⟩
        rw [hA]
        simp only [Bool.true_eq_false, iff_false]
        exact ne_of_gt hmin
      cases hlr : s.2 with
      | none => simpa only [applyOp, Player.repair, hA, if_true, hlr] using hgoal
      | some t =>
        by_cases hcd : t ≠ 0 ∧ now - t < REPAIR_COOLDOWN
        · simp only [applyOp, Player.repair, hA, if_true, hlr, if_pos hcd]
          exact ⟨h0, h100, hiff⟩
        · simpa only [applyOp, Player.repair, hA, if_true, hlr, if_neg hcd]
            using hgoal
    · simp only [applyOp, Player.repair, hA, Bool.false_eq_true, if_false]
      exact ⟨h0, h100, hiff⟩
  | reborn rx ry =>
    simp only [applyOp, Player.respawn]
    unfold hpOK
    dsimp only
    norm_num [MAX_HEALTH]
  | step dt now rx ry nd =>
    by_cases hA : s.1.isAlive
    · simp only [applyOp, Player.update, hA, if_true]
      unfold hpOK
      dsimp only
      rw [hA] at hiff
      exact ⟨h0, h100, hiff⟩
    · by_cases hR : now > s.1.respawnTime
      · simp only [applyOp, Player.update, hA, Bool.false_eq_true, if_false,
          if_pos hR, Player.respawn]
        unfold hpOK
        dsimp only
        norm_num [MAX_HEALTH]
      · simp only [applyOp, Player.update, hA, Bool.false_eq_true, if_false,
          if_neg hR]
        exact ⟨h0, h100, hiff⟩

/-- Helper: the health invariant holds after any fold of valid
operations over an invariant-satisfying state. -/
theorem hpOK_foldl (ops : List Op) (s : Player × Option ℚ)
    (hok : ∀ op ∈ ops, op.ok) (h : hpOK s.1) :
    hpOK (ops.foldl applyOp s).1 := by
  induction ops generalizing s with
  | nil => exact h
  | cons op rest ih =>
    simp only [List.foldl_cons]
    exact ih (applyOp s op)
      (fun o ho => hok o (List.mem_cons_of_mem op ho))
      (hpOK_applyOp s op (hok op (List.mem_cons_self op rest)) h)

/-- C4: starting from a fresh tank, after any sequence of operations
(damage with nonnegative amounts — the only amount the server passes is
`BULLET_DAMAGE = 25` — repair, respawn, tick), `0 ≤ hp ≤ MAX_HEALTH`
holds and `hp = 0` exactly when the tank is not alive: `die` forces
`hp` to 0, `respawn` to `MAX_HEALTH`, and `repair` caps at
`MAX_HEALTH`. -/
theorem hp_invariant_sequences (id : String) (sx sy : ℚ) (ops : List Op)
    (hok : ∀ op ∈ ops, op.ok) :
    0 ≤ (ops.foldl applyOp (Player.mk0 id sx sy, none)).1.hp ∧
    (ops.foldl applyOp (Player.mk0 id sx sy, none)).1.hp ≤ MAX_HEALTH ∧
    ((ops.foldl applyOp (Player.mk0 id sx sy, none)).1.hp = 0 ↔
      (ops.foldl applyOp (Player.mk0 id sx sy, none)).1.isAlive = false) :=
  hpOK_foldl ops (Player.mk0 id sx sy, none) hok (hpOK_mk0 id sx sy)

/-- Witness for C4 on a concrete sequence: a hit for 25, a repair, a
lethal hit for 100, and a tick that respawns the tank. -/
theorem hp_invariant_sequences_witness :
    (∀ op ∈ [Op.hit 25 1000, Op.fix 2000, Op.hit 100 3000,
        Op.step (1 / 120) 7000 (1 / 2) (1 / 2) 0], op.ok) ∧
    (0 ≤ ([Op.hit 25 1000, Op.fix 2000, Op.hit 100 3000,
        Op.step (1 / 120) 7000 (1 / 2) (1 / 2) 0].foldl applyOp
        (Player.mk0 "aaaa" 100 100, none)).1.hp) := by
  have hok : ∀ op ∈ [Op.hit 25 1000, Op.fix 2000, Op.hit 100 3000,
      Op.step (1 / 120) 7000 (1 / 2) (1 / 2) 0], op.ok := by
    intro op hop
    fin_cases hop <;> norm_num [Op.ok]
  exact ⟨hok, (hp_invariant_sequences "aaaa" 100 100 _ hok).1⟩

/-- Helper: a bullet kept by `Bullet.update` has age at most
`BULLET_LIFETIME`. -/
theorem update_true_age (b : Bullet) (dt now : ℚ)
    (h : (b.update dt now).2 = true) :
    now - b.createdAt ≤ BULLET_LIFETIME := by
  simp only [Bullet.update, Bool.not_eq_true', Bool.or_eq_false_iff,
    decide_eq_false_iff_not, not_lt] at h
  exact h.2

/-- Helper: every bullet surviving the bullet phase has age at most
`BULLET_LIFETIME`. -/
theorem bulletPhase_age (s : ℚ → ℚ) (dt now : ℚ) (bs : List Bullet)
    (ps : List Player) :
    ∀ b ∈ (bulletPhase s dt now bs ps).2, now - b.createdAt ≤ BULLET_LIFETIME := by
  induction bs with
  | nil =>
    intro b hb
    simp [bulletPhase] at hb
  | cons b0 rest ih =>
    intro b hb
    have hstep : bulletPhase s dt now (b0 :: rest) ps
        = bulletStep s dt now b0 (bulletPhase s dt now rest ps) := rfl
    rw [hstep, bulletStep] at hb
    by_cases hu : (b0.update dt now).2
    · rw [if_pos hu] at hb
      cases hfind : findHitIdx s (bulletPhase s dt now rest ps).1
          (b0.update dt now).1 with
      | none =>
        rw [hfind] at hb
        rcases List.mem_cons.mp hb with hhead | htail
        · rw [hhead]
          exact update_true_age b0 dt now hu
        · exact ih b htail
      | some i =>
        rw [hfind] at hb
        exact ih b hb
    · rw [if_neg hu] at hb
      exact ih b hb

/-- C8: `Bullet.update dt` integrates position by `velocity * dt`, and
reports removal exactly when the new position is outside the arena
bounds expanded by a 50-unit margin on some side or the age strictly
exceeds `BULLET_LIFETIME`; consequently every bullet present in the
world produced by a tick at time `now` — in particular in that tick's
broadcast — has `now - createdAt ≤ BULLET_LIFETIME`, so a bullet created
at `t0` that registers no hit is absent from world state at any query
with `now > t0 + BULLET_LIFETIME`. -/
theorem bullet_expiry (b : Bullet) (dt now : ℚ) (s na : ℚ → ℚ)
    (rnd : ℕ → ℚ × ℚ) (w : World) :
    ((b.update dt now).1.x = b.x + b.vx * dt ∧
     (b.update dt now).1.y = b.y + b.vy * dt) ∧
    ((b.update dt now).2 = false ↔
      ((b.update dt now).1.x < -50 ∨ ARENA_WIDTH + 50 < (b.update dt now).1.x ∨
       (b.update dt now).1.y < -50 ∨ ARENA_HEIGHT + 50 < (b.update dt now).1.y ∨
       BULLET_LIFETIME < now - b.createdAt)) ∧
    (∀ b' ∈ (gameTick s na rnd w dt now).bullets,
      now - b'.createdAt ≤ BULLET_LIFETIME) := by
  refine ⟨⟨rfl, rfl⟩, ?_, ?_⟩
  · simp only [Bullet.update, Bool.not_eq_false', Bool.or_eq_true_iff,
      decide_eq_true_eq]
    tauto
  · intro b' hb'
    have : (gameTick s na rnd w dt now).bullets
        = (bulletPhase s dt now w.bullets
            (updateFrom na rnd dt now 0 w.players)).2 := rfl
    rw [this] at hb'
    exact bulletPhase_age s dt now w.bullets
      (updateFrom na rnd dt now 0 w.players) b' hb'

/-- Witness for C8: a bullet created at 9000 survives the tick at 10000
(age 1000) and indeed satisfies the age bound. -/
theorem bullet_expiry_witness :
    (⟨600, 350, 0, 0, "aaaa", 9000, 0⟩ : Bullet) ∈
      (gameTick qSqrt (fun d => d) (fun _ => (1 / 2, 1 / 2))
        ⟨[], [⟨600, 350, 0, 0, "aaaa", 9000, 0⟩]⟩ (1 / 120) 10000).bullets ∧
    (10000 : ℚ) - (⟨600, 350, 0, 0, "aaaa", 9000, 0⟩ : Bullet).createdAt
      ≤ BULLET_LIFETIME := by
  have hmem : (⟨600, 350, 0, 0, "aaaa", 9000, 0⟩ : Bullet) ∈
      (gameTick qSqrt (fun d => d) (fun _ => (1 / 2, 1 / 2))
        ⟨[], [⟨600, 350, 0, 0, "aaaa", 9000, 0⟩]⟩ (1 / 120) 10000).bullets := by
    norm_num [gameTick, bulletPhase, bulletStep, Bullet.update, updateFrom,
      findHitIdx, resolveAll, resolveAllFuel, BULLET_LIFETIME, ARENA_WIDTH,
      ARENA_HEIGHT]
  exact ⟨hmem,
    (bullet_expiry ⟨600, 350, 0, 0, "aaaa", 9000, 0⟩ (1 / 120) 10000 qSqrt
      (fun d => d) (fun _ => (1 / 2, 1 / 2))
      ⟨[], [⟨600, 350, 0, 0, "aaaa", 9000, 0⟩]⟩).2.2 _ hmem⟩

end TankGame
